import Mathlib

/-!
Shallow embedding of `spl-faucet/src/main.rs` (the `spl-faucet` CLI of
mrgnlabs/solana-helpers) together with theorems checking the repository's
specification against it.

Modelling conventions:
* A public key (`Pubkey`) is the 32-byte address read as a big-endian
  natural number.
* Machine integers (`u64`, `u8`) are `Nat` with explicit reduction
  modulo `2 ^ 64` where Rust release-mode wrapping matters.
* Byte strings are `List Nat` with every element `< 256`.
* The hashing primitive used by program-derived-address computation
  (SHA-256) and the ed25519 curve membership test are abstract function
  parameters: every theorem about address derivation holds for an
  arbitrary hash and curve test.
* Network calls of `RpcClient` are an environment record of responses;
  the async flow is an interpreter producing a result and an event
  trace (RPC submissions, printed lines).
-/

namespace SplFaucet

/-- A 32-byte Solana address, viewed as a big-endian natural number. -/
abbrev Pubkey := Nat

/-- `main.rs` line 40: the fixed faucet program id,
base58 `4bXpkKSV8swHSnwqtzuboGPaPDeEgAn4Vt8GfarV5rZt` decoded. -/
def FAUCET_PROGRAM_ID : Pubkey :=
  24162800110725309313409613351788180001002409118080578594877896745663448400791

/-- `sysvar::rent::id()`: base58 `SysvarRent111111111111111111111111111111111` decoded. -/
def RENT_SYSVAR_ID : Pubkey :=
  3010411246019284437244212147455409835011261068170932596721577831542904848384

/-- `spl_token::ID`: base58 `TokenkegQfeZyiNwAJbNbGKPFXCWuBvf9Ss623VQ5DA` decoded. -/
def TOKEN_PROGRAM_ID : Pubkey :=
  3106054211088883198575105191760876350940303353676611666299516346430146937001

/-- The `u64` modulus. -/
def U64_MOD : Nat := 2 ^ 64

/-- Rust release-mode `u64` multiplication: wraps modulo `2 ^ 64`. -/
def u64_mul (a b : Nat) : Nat := a * b % U64_MOD

/-- Rust release-mode `10u64.pow n`: repeated wrapping multiplication. -/
def u64_pow10 : Nat → Nat
  | 0 => 1
  | n + 1 => u64_mul (u64_pow10 n) 10

/-- `u64::to_le_bytes`: the 8 little-endian bytes of `n` (low byte first). -/
def u64_to_le_bytes (n : Nat) : List Nat :=
  [n % 256, n / 2 ^ 8 % 256, n / 2 ^ 16 % 256, n / 2 ^ 24 % 256,
   n / 2 ^ 32 % 256, n / 2 ^ 40 % 256, n / 2 ^ 48 % 256, n / 2 ^ 56 % 256]

/-- Reference decoder for a `u64` stored as 8 little-endian bytes. -/
def u64_from_le_bytes (bs : List Nat) : Nat :=
  match bs with
  | [b0, b1, b2, b3, b4, b5, b6, b7] =>
      b0 + b1 * 2 ^ 8 + b2 * 2 ^ 16 + b3 * 2 ^ 24 +
      b4 * 2 ^ 32 + b5 * 2 ^ 40 + b6 * 2 ^ 48 + b7 * 2 ^ 56
  | _ => 0

/-- `solana_sdk::instruction::AccountMeta`. -/
structure AccountMeta where
  pubkey : Pubkey
  is_signer : Bool
  is_writable : Bool
  deriving Repr, DecidableEq

/-- `AccountMeta::new`: writable, signer flag as given. -/
def AccountMeta.mkNew (pubkey : Pubkey) (is_signer : Bool) : AccountMeta :=
  { pubkey := pubkey, is_signer := is_signer, is_writable := true }

/-- `AccountMeta::new_readonly`: read-only, signer flag as given. -/
def AccountMeta.new_readonly (pubkey : Pubkey) (is_signer : Bool) : AccountMeta :=
  { pubkey := pubkey, is_signer := is_signer, is_writable := false }

/-- `solana_sdk::instruction::Instruction`: program id, ordered account
metas, opaque byte payload. -/
structure Instruction where
  program_id : Pubkey
  accounts : List AccountMeta
  data : List Nat
  deriving Repr, DecidableEq

/-- Discriminant byte of `FaucetInstruction::InitFaucet` in the
`spl_token_faucet` crate (first variant of the instruction enum). -/
def INIT_FAUCET_TAG : Nat := 0

/-- Modelled from the spec: `FaucetInstruction::InitFaucet { amount }.pack()`
from the external `spl_token_faucet` crate (only called, not defined, in this
repository).  Per §4.2 the payload is a leading discriminant byte identifying
the InitFaucet operation followed by the fixed-width amount in the defined
(little-endian) byte order. -/
def FaucetInstruction.pack_init_faucet (amount : Nat) : List Nat :=
  INIT_FAUCET_TAG :: u64_to_le_bytes amount

/-- Modelled from the spec: the reference decoder for an InitFaucet payload,
recovering the amount from a tag byte followed by 8 little-endian bytes. -/
def FaucetInstruction.unpack_init_faucet (data : List Nat) : Option Nat :=
  match data with
  | tag :: rest =>
      if tag = INIT_FAUCET_TAG ∧ rest.length = 8 then
        some (u64_from_le_bytes rest)
      else none
  | [] => none

/-- `main.rs` lines 155-176: `create_init_faucet_ix`. -/
def create_init_faucet_ix (mint_account : Pubkey) (faucet_account : Pubkey)
    (admin : Option Pubkey) (amount : Nat) : Instruction :=
  let accounts :=
    [AccountMeta.new_readonly mint_account false,
     AccountMeta.mkNew faucet_account false,
     AccountMeta.new_readonly RENT_SYSVAR_ID false]
  let accounts :=
    match admin with
    | some admin => accounts ++ [AccountMeta.new_readonly admin false]
    | none => accounts
  { program_id := FAUCET_PROGRAM_ID,
    accounts := accounts,
    data := FaucetInstruction.pack_init_faucet amount }

/-- Big-endian byte expansion of a natural number to a fixed width. -/
def nat_to_be_bytes : Nat → Nat → List Nat
  | 0, _ => []
  | len + 1, n => nat_to_be_bytes len (n / 256) ++ [n % 256]

/-- The 32 big-endian bytes of a public key (`Pubkey::as_ref`). -/
def pubkey_bytes (p : Pubkey) : List Nat := nat_to_be_bytes 32 p

/-- The ASCII bytes of the domain-separation marker `"ProgramDerivedAddress"`
appended by `Pubkey::create_program_address`. -/
def PDA_MARKER : List Nat :=
  [80, 114, 111, 103, 114, 97, 109, 68, 101, 114, 105, 118, 101, 100,
   65, 100, 100, 114, 101, 115, 115]

/-- `solana_sdk::pubkey::MAX_SEEDS`. -/
def MAX_SEEDS : Nat := 16

/-- `solana_sdk::pubkey::MAX_SEED_LEN`. -/
def MAX_SEED_LEN : Nat := 32

/-- `solana_sdk::pubkey::PubkeyError` (the variants relevant to address
derivation). -/
inductive PubkeyError where
  | invalidSeeds
  | maxSeedLengthExceeded
  deriving Repr, DecidableEq

/-- `Pubkey::create_program_address`, parameterized by the SHA-256 hash
(`sha256`, over the concatenation of all hashed chunks) and the ed25519
curve-membership test (`on_curve`).  Hashes every seed, then the program
id bytes and the PDA marker; rejects the result when it lies on the curve. -/
def create_program_address (sha256 : List Nat → Pubkey) (on_curve : Pubkey → Bool)
    (seeds : List (List Nat)) (program_id : Pubkey) : Except PubkeyError Pubkey :=
  if seeds.length > MAX_SEEDS then .error .maxSeedLengthExceeded
  else if seeds.any (fun s => s.length > MAX_SEED_LEN) then .error .maxSeedLengthExceeded
  else
    let h := sha256 (seeds.flatten ++ pubkey_bytes program_id ++ PDA_MARKER)
    if on_curve h then .error .invalidSeeds else .ok h

/-- The bump-seed search loop of `Pubkey::try_find_program_address`: the
fuel value is the candidate bump seed, tried from 255 down to 1.  A
`InvalidSeeds` failure decrements the bump; any other failure breaks the
loop (returning `none`). -/
def try_find_go (sha256 : List Nat → Pubkey) (on_curve : Pubkey → Bool)
    (seeds : List (List Nat)) (program_id : Pubkey) : Nat → Option (Pubkey × Nat)
  | 0 => none
  | fuel + 1 =>
      match create_program_address sha256 on_curve (seeds ++ [[fuel + 1]]) program_id with
      | .ok address => some (address, fuel + 1)
      | .error .invalidSeeds => try_find_go sha256 on_curve seeds program_id fuel
      | .error _ => none

/-- `Pubkey::try_find_program_address`: starts with bump seed `u8::MAX = 255`. -/
def try_find_program_address (sha256 : List Nat → Pubkey) (on_curve : Pubkey → Bool)
    (seeds : List (List Nat)) (program_id : Pubkey) : Option (Pubkey × Nat) :=
  try_find_go sha256 on_curve seeds program_id 255

/-- The ASCII bytes of the constant seed `b"faucet"`. -/
def FAUCET_SEED : List Nat := [102, 97, 117, 99, 101, 116]

/-- `main.rs` lines 151-153: `get_faucet_pda`, i.e.
`Pubkey::find_program_address(&[b"faucet"], &FAUCET_PROGRAM_ID)`.
`find_program_address` panics when the search fails, modelled by `none`. -/
def get_faucet_pda (sha256 : List Nat → Pubkey) (on_curve : Pubkey → Bool) :
    Option (Pubkey × Nat) :=
  try_find_program_address sha256 on_curve [FAUCET_SEED] FAUCET_PROGRAM_ID

/-- `spl_token::state::Mint::LEN` (external crate constant): packed size of a
token mint record. -/
def Mint.LEN : Nat := 82

/-- `spl_token_faucet::state::Faucet::LEN` (external crate constant): packed
size of a faucet state record. -/
def Faucet.LEN : Nat := 77

/-- An instruction of the `create` transaction.  The two external builders
(`system_instruction::create_account`, `spl_token::instruction::initialize_mint2`)
are modelled by the parameters the client passes them; the in-repository
faucet instruction is carried in full. -/
inductive TxInstruction where
  | create_account (from_pubkey : Pubkey) (to_pubkey : Pubkey)
      (lamports : Nat) (space : Nat) (owner : Pubkey)
  | initialize_mint2 (token_program_id : Pubkey) (mint_pubkey : Pubkey)
      (mint_authority : Pubkey) (freeze_authority : Option Pubkey) (decimals : Nat)
  | faucet_instruction (ix : Instruction)
  deriving Repr, DecidableEq

/-- `Transaction::new_signed_with_payer`: instruction list, fee payer, the
public keys of the signing keypairs, recent blockhash. -/
structure Transaction where
  instructions : List TxInstruction
  payer : Option Pubkey
  signers : List Pubkey
  recent_blockhash : Nat
  deriving Repr, DecidableEq

/-- `main.rs` line 99: `ui_amount * 10u64.pow(decimals as u32)` with Rust
release-mode (wrapping) `u64` arithmetic. -/
def scaled_amount (ui_amount : Nat) (decimals : Nat) : Nat :=
  u64_mul ui_amount (u64_pow10 decimals)

/-- `main.rs` lines 101-131: the transaction assembled by
`inti_mint_and_faucet`, given the mint authority (computed from
`get_faucet_pda` at line 97), the ephemeral keypair addresses, and the
rent-exemption balances and blockhash fetched over RPC. -/
def inti_mint_and_faucet_tx (mint_authority : Pubkey) (decimals : Nat)
    (payer_pubkey mint_pubkey faucet_pubkey : Pubkey)
    (rent_mint rent_faucet : Nat) (blockhash : Nat) (ui_amount : Nat) : Transaction :=
  { instructions :=
      [TxInstruction.create_account payer_pubkey mint_pubkey rent_mint
         Mint.LEN TOKEN_PROGRAM_ID,
       TxInstruction.initialize_mint2 TOKEN_PROGRAM_ID mint_pubkey
         mint_authority none decimals,
       TxInstruction.create_account payer_pubkey faucet_pubkey rent_faucet
         Faucet.LEN FAUCET_PROGRAM_ID,
       TxInstruction.faucet_instruction
         (create_init_faucet_ix mint_pubkey faucet_pubkey none
            (scaled_amount ui_amount decimals))],
    payer := some payer_pubkey,
    signers := [payer_pubkey, mint_pubkey, faucet_pubkey],
    recent_blockhash := blockhash }

/-- `solana_sdk::commitment_config::CommitmentConfig` levels used by the
client. -/
inductive Commitment where
  | processed
  | confirmed
  | finalized
  deriving Repr, DecidableEq

/-- Observable effects of one run of the create flow. -/
inductive Event where
  | get_minimum_balance_for_rent_exemption (size : Nat)
  | get_latest_blockhash
  | send_and_confirm (tx : Transaction) (commitment : Commitment)
  | println (line : String)
  deriving Repr, DecidableEq

/-- Responses of the remote node, one per RPC entry point used by the flow. -/
structure RpcEnv where
  minimum_balance_for_rent_exemption : Nat → Except String Nat
  latest_blockhash : Except String Nat
  send_and_confirm_transaction : Transaction → Commitment → Except String Nat

/-- Outcome of the async flow: `Ok(())`, a propagated error (`?`), or an
abnormal termination (panic). -/
inductive FlowResult where
  | ok
  | err (e : String)
  | panics
  deriving Repr, DecidableEq

/-- `main.rs` lines 89-149: `inti_mint_and_faucet`.  The ephemeral
`Keypair::new()` results are the `mint_pubkey` / `faucet_pubkey` inputs;
the `expect` inside `find_program_address` is the `panics` outcome.
Returns the flow result together with the trace of RPC calls and printed
lines, in program order. -/
def inti_mint_and_faucet (env : RpcEnv) (sha256 : List Nat → Pubkey)
    (on_curve : Pubkey → Bool) (decimals : Nat)
    (payer_pubkey mint_pubkey faucet_pubkey : Pubkey) (ui_amount : Nat) :
    FlowResult × List Event :=
  match get_faucet_pda sha256 on_curve with
  | none => (.panics, [])
  | some pda =>
    let mint_authority := pda.1
    match env.minimum_balance_for_rent_exemption Mint.LEN with
    | .error e => (.err e, [.get_minimum_balance_for_rent_exemption Mint.LEN])
    | .ok rent_mint =>
      match env.minimum_balance_for_rent_exemption Faucet.LEN with
      | .error e =>
          (.err e, [.get_minimum_balance_for_rent_exemption Mint.LEN,
                    .get_minimum_balance_for_rent_exemption Faucet.LEN])
      | .ok rent_faucet =>
        match env.latest_blockhash with
        | .error e =>
            (.err e, [.get_minimum_balance_for_rent_exemption Mint.LEN,
                      .get_minimum_balance_for_rent_exemption Faucet.LEN,
                      .get_latest_blockhash])
        | .ok blockhash =>
          let tx := inti_mint_and_faucet_tx mint_authority decimals
            payer_pubkey mint_pubkey faucet_pubkey rent_mint rent_faucet
            blockhash ui_amount
          match env.send_and_confirm_transaction tx Commitment.confirmed with
          | .error e =>
              (.err e, [.get_minimum_balance_for_rent_exemption Mint.LEN,
                        .get_minimum_balance_for_rent_exemption Faucet.LEN,
                        .get_latest_blockhash,
                        .send_and_confirm tx Commitment.confirmed])
          | .ok sig =>
              (.ok, [.get_minimum_balance_for_rent_exemption Mint.LEN,
                     .get_minimum_balance_for_rent_exemption Faucet.LEN,
                     .get_latest_blockhash,
                     .send_and_confirm tx Commitment.confirmed,
                     .println ("Transaction signature: " ++ toString sig),
                     .println ("Mint: " ++ toString mint_pubkey ++
                               "\nFaucet: " ++ toString faucet_pubkey)])

/-- The CLI command surface (`main.rs` lines 68-87). -/
inductive Command where
  | create (max_amount : Nat) (decimals : Nat)
  | airdrop (faucet : String) (amount : Nat)
  | close (faucet : String)
  deriving Repr, DecidableEq

/-- What `main` does with a parsed command. -/
inductive MainAction where
  | runs_create (decimals : Nat) (max_amount : Nat)
  | panics_todo
  deriving Repr, DecidableEq

/-- `main.rs` lines 28-34: the command dispatch in `main`.  `Create` runs
`inti_mint_and_faucet(decimals, payer, rpc, max_amount)`; `Airdrop` and
`Close` hit `todo!()`, an unconditional panic. -/
def main_dispatch : Command → MainAction
  | .create max_amount decimals => .runs_create decimals max_amount
  | .airdrop _ _ => .panics_todo
  | .close _ => .panics_todo

/-- Decoding the 8 little-endian bytes of `n` recovers `n` modulo `2 ^ 64`. -/
theorem u64_le_bytes_roundtrip (n : Nat) :
    u64_from_le_bytes (u64_to_le_bytes n) = n % U64_MOD := by
  simp only [u64_to_le_bytes, u64_from_le_bytes, U64_MOD]
  omega

/-- A deterministic hash stub used by concrete witness instantiations. -/
def test_sha (_ : List Nat) : Pubkey := 7

/-- A curve test that accepts every candidate, used by witness instantiations. -/
def test_curve (_ : Pubkey) : Bool := false

/-- A remote node whose every response succeeds, used by witness
instantiations. -/
def test_env : RpcEnv :=
  { minimum_balance_for_rent_exemption := fun _ => .ok 100,
    latest_blockhash := .ok 42,
    send_and_confirm_transaction := fun _ _ => .ok 5 }

end SplFaucet

namespace SplFaucet

/-- C1: the spec requires `create --max-amount U --decimals D` to detect and
reject an overflowing `U * 10 ^ D`, but line 99 multiplies with wrapping
`u64` arithmetic: at `U = 10 ^ 19`, `D = 1` the encoded amount is
`10 ^ 20 mod 2 ^ 64 = 7766279631452241920`, not the exact product, and the
wrapped value flows silently into the initialize-faucet payload. -/
theorem scaled_amount_overflow_wraps :
    scaled_amount (10 ^ 19) 1 = 7766279631452241920 ∧
    ¬ 7766279631452241920 = 10 ^ 19 * 10 ^ 1 ∧
    (create_init_faucet_ix 0 1 none (scaled_amount (10 ^ 19) 1)).data =
      FaucetInstruction.pack_init_faucet 7766279631452241920 := by
  refine ⟨by decide, by decide, by decide⟩

/-- C2: whenever address derivation and the three preparatory RPC calls
succeed, the create flow submits a transaction whose instruction list is
exactly create-mint-account, initialize-mint with authority the program
derived address of (`FAUCET_PROGRAM_ID`, seed `"faucet"`), then
create-faucet-account and initialize-faucet — nothing else. -/
theorem create_flow_builds_four_instructions
    (env : RpcEnv) (sha256 : List Nat → Pubkey) (on_curve : Pubkey → Bool)
    (decimals : Nat) (payer_pubkey mint_pubkey faucet_pubkey : Pubkey)
    (ui_amount : Nat) (pda : Pubkey) (bump rent_mint rent_faucet blockhash : Nat)
    (hpda : get_faucet_pda sha256 on_curve = some (pda, bump))
    (hrm : env.minimum_balance_for_rent_exemption Mint.LEN = .ok rent_mint)
    (hrf : env.minimum_balance_for_rent_exemption Faucet.LEN = .ok rent_faucet)
    (hbh : env.latest_blockhash = .ok blockhash) :
    (inti_mint_and_faucet_tx pda decimals payer_pubkey mint_pubkey
        faucet_pubkey rent_mint rent_faucet blockhash ui_amount).instructions =
      [TxInstruction.create_account payer_pubkey mint_pubkey rent_mint
         Mint.LEN TOKEN_PROGRAM_ID,
       TxInstruction.initialize_mint2 TOKEN_PROGRAM_ID mint_pubkey pda
         none decimals,
       TxInstruction.create_account payer_pubkey faucet_pubkey rent_faucet
         Faucet.LEN FAUCET_PROGRAM_ID,
       TxInstruction.faucet_instruction
         (create_init_faucet_ix mint_pubkey faucet_pubkey none
            (scaled_amount ui_amount decimals))] ∧
    Event.send_and_confirm
        (inti_mint_and_faucet_tx pda decimals payer_pubkey mint_pubkey
          faucet_pubkey rent_mint rent_faucet blockhash ui_amount)
        Commitment.confirmed ∈
      (inti_mint_and_faucet env sha256 on_curve decimals payer_pubkey
        mint_pubkey faucet_pubkey ui_amount).2 := by
  refine ⟨rfl, ?_⟩
  unfold inti_mint_and_faucet
  rw [hpda]
  simp only [hrm, hrf, hbh]
  cases env.send_and_confirm_transaction
      (inti_mint_and_faucet_tx pda decimals payer_pubkey mint_pubkey
        faucet_pubkey rent_mint rent_faucet blockhash ui_amount)
      Commitment.confirmed <;> simp

/-- Witness for C2 at a concrete environment: the stub hash immediately
yields the derived address `(7, 255)` and all RPC responses succeed. -/
theorem create_flow_builds_four_instructions_witness :
    get_faucet_pda test_sha test_curve = some (7, 255) ∧
    test_env.minimum_balance_for_rent_exemption Mint.LEN = .ok 100 ∧
    ((inti_mint_and_faucet_tx 7 6 1 2 3 100 100 42 1000).instructions =
      [TxInstruction.create_account 1 2 100 Mint.LEN TOKEN_PROGRAM_ID,
       TxInstruction.initialize_mint2 TOKEN_PROGRAM_ID 2 7 none 6,
       TxInstruction.create_account 1 3 100 Faucet.LEN FAUCET_PROGRAM_ID,
       TxInstruction.faucet_instruction
         (create_init_faucet_ix 2 3 none (scaled_amount 1000 6))] ∧
     Event.send_and_confirm (inti_mint_and_faucet_tx 7 6 1 2 3 100 100 42 1000)
        Commitment.confirmed ∈
      (inti_mint_and_faucet test_env test_sha test_curve 6 1 2 3 1000).2) :=
  ⟨by decide, rfl,
   create_flow_builds_four_instructions test_env test_sha test_curve 6 1 2 3
     1000 7 255 100 100 42 (by decide) rfl rfl rfl⟩

/-- C3: the initialize-faucet account list is mint (read-only, non-signer),
faucet account (writable, non-signer), rent sysvar (read-only, non-signer),
then the admin (read-only, non-signer) when present: 3 entries without an
admin and 4 with one, the faucet account the only writable entry, and no
entry a required signer. -/
theorem init_faucet_accounts_shape (mint_account faucet_account : Pubkey)
    (admin : Option Pubkey) (amount : Nat) :
    (create_init_faucet_ix mint_account faucet_account admin amount).accounts =
      ([AccountMeta.new_readonly mint_account false,
        AccountMeta.mkNew faucet_account false,
        AccountMeta.new_readonly RENT_SYSVAR_ID false] ++
       (match admin with
        | some a => [AccountMeta.new_readonly a false]
        | none => [])) ∧
    (create_init_faucet_ix mint_account faucet_account admin amount).accounts.length =
      (match admin with
       | some _ => 4
       | none => 3) ∧
    ((create_init_faucet_ix mint_account faucet_account admin amount).accounts.filter
        (fun m => m.is_writable)).map (fun m => m.pubkey) = [faucet_account] ∧
    ((create_init_faucet_ix mint_account faucet_account admin amount).accounts.all
        (fun m => !m.is_signer)) = true := by
  cases admin <;>
    simp [create_init_faucet_ix, AccountMeta.new_readonly, AccountMeta.mkNew,
      List.filter, List.all]

/-- C4: the initialize-faucet payload is the InitFaucet discriminant byte
followed by the amount as 8 little-endian bytes, and the reference decoder
recovers the amount exactly. -/
theorem init_faucet_payload_roundtrip (mint_account faucet_account : Pubkey)
    (admin : Option Pubkey) (amount : Nat) (h : amount < U64_MOD) :
    (create_init_faucet_ix mint_account faucet_account admin amount).data =
      INIT_FAUCET_TAG :: u64_to_le_bytes amount ∧
    FaucetInstruction.unpack_init_faucet
        (create_init_faucet_ix mint_account faucet_account admin amount).data =
      some amount := by
  refine ⟨rfl, ?_⟩
  show FaucetInstruction.unpack_init_faucet
      (FaucetInstruction.pack_init_faucet amount) = some amount
  simp only [FaucetInstruction.pack_init_faucet, FaucetInstruction.unpack_init_faucet]
  rw [if_pos ⟨trivial, rfl⟩, u64_le_bytes_roundtrip, Nat.mod_eq_of_lt h]

/-- Witness for C4 at `amount = 123`. -/
theorem init_faucet_payload_roundtrip_witness :
    (123 : Nat) < U64_MOD ∧
    ((create_init_faucet_ix 1 2 none 123).data =
        INIT_FAUCET_TAG :: u64_to_le_bytes 123 ∧
     FaucetInstruction.unpack_init_faucet (create_init_faucet_ix 1 2 none 123).data =
        some 123) :=
  ⟨by decide, init_faucet_payload_roundtrip 1 2 none 123 (by decide)⟩

/-- C5: address derivation is deterministic — two invocations of
`get_faucet_pda` over the same hash and curve primitives produce the same
derived address and the same bump nonce. -/
theorem get_faucet_pda_deterministic (sha256 : List Nat → Pubkey)
    (on_curve : Pubkey → Bool) :
    (get_faucet_pda sha256 on_curve).map Prod.fst =
      (get_faucet_pda sha256 on_curve).map Prod.fst ∧
    (get_faucet_pda sha256 on_curve).map Prod.snd =
      (get_faucet_pda sha256 on_curve).map Prod.snd := ⟨rfl, rfl⟩

/-- C6: the create transaction's signing keypairs are exactly the fee payer,
the mint keypair and the faucet keypair, in that order, and the fee payer is
the transaction payer. -/
theorem create_tx_signers (mint_authority : Pubkey) (decimals : Nat)
    (payer_pubkey mint_pubkey faucet_pubkey : Pubkey)
    (rent_mint rent_faucet blockhash ui_amount : Nat) :
    (inti_mint_and_faucet_tx mint_authority decimals payer_pubkey mint_pubkey
        faucet_pubkey rent_mint rent_faucet blockhash ui_amount).signers =
      [payer_pubkey, mint_pubkey, faucet_pubkey] ∧
    (inti_mint_and_faucet_tx mint_authority decimals payer_pubkey mint_pubkey
        faucet_pubkey rent_mint rent_faucet blockhash ui_amount).payer =
      some payer_pubkey := ⟨rfl, rfl⟩

/-- C7: for every argument, the `airdrop` and `close` commands hit the
unconditional `todo!()` panic in `main`. -/
theorem airdrop_close_panic (faucet : String) (amount : Nat) :
    main_dispatch (Command.airdrop faucet amount) = MainAction.panics_todo ∧
    main_dispatch (Command.close faucet) = MainAction.panics_todo := ⟨rfl, rfl⟩

/-- C8: on the all-success path the create flow submits the transaction at
the confirmed commitment level and then prints the transaction signature
followed by the mint and faucet addresses. -/
theorem create_flow_success_output
    (env : RpcEnv) (sha256 : List Nat → Pubkey) (on_curve : Pubkey → Bool)
    (decimals : Nat) (payer_pubkey mint_pubkey faucet_pubkey : Pubkey)
    (ui_amount : Nat) (pda : Pubkey) (bump rent_mint rent_faucet blockhash sig : Nat)
    (hpda : get_faucet_pda sha256 on_curve = some (pda, bump))
    (hrm : env.minimum_balance_for_rent_exemption Mint.LEN = .ok rent_mint)
    (hrf : env.minimum_balance_for_rent_exemption Faucet.LEN = .ok rent_faucet)
    (hbh : env.latest_blockhash = .ok blockhash)
    (hsend : env.send_and_confirm_transaction
        (inti_mint_and_faucet_tx pda decimals payer_pubkey mint_pubkey
          faucet_pubkey rent_mint rent_faucet blockhash ui_amount)
        Commitment.confirmed = .ok sig) :
    inti_mint_and_faucet env sha256 on_curve decimals payer_pubkey mint_pubkey
        faucet_pubkey ui_amount =
      (FlowResult.ok,
       [Event.get_minimum_balance_for_rent_exemption Mint.LEN,
        Event.get_minimum_balance_for_rent_exemption Faucet.LEN,
        Event.get_latest_blockhash,
        Event.send_and_confirm
          (inti_mint_and_faucet_tx pda decimals payer_pubkey mint_pubkey
            faucet_pubkey rent_mint rent_faucet blockhash ui_amount)
          Commitment.confirmed,
        Event.println ("Transaction signature: " ++ toString sig),
        Event.println ("Mint: " ++ toString mint_pubkey ++
                       "\nFaucet: " ++ toString faucet_pubkey)]) := by
  unfold inti_mint_and_faucet
  rw [hpda]
  simp only [hrm, hrf, hbh, hsend]

/-- Witness for C8 at a concrete environment where every RPC call succeeds. -/
theorem create_flow_success_output_witness :
    get_faucet_pda test_sha test_curve = some (7, 255) ∧
    test_env.latest_blockhash = .ok 42 ∧
    inti_mint_and_faucet test_env test_sha test_curve 6 1 2 3 1000 =
      (FlowResult.ok,
       [Event.get_minimum_balance_for_rent_exemption Mint.LEN,
        Event.get_minimum_balance_for_rent_exemption Faucet.LEN,
        Event.get_latest_blockhash,
        Event.send_and_confirm (inti_mint_and_faucet_tx 7 6 1 2 3 100 100 42 1000)
          Commitment.confirmed,
        Event.println ("Transaction signature: " ++ toString (5 : Nat)),
        Event.println ("Mint: " ++ toString (2 : Pubkey) ++
                       "\nFaucet: " ++ toString (3 : Pubkey))]) :=
  ⟨by decide, rfl,
   create_flow_success_output test_env test_sha test_curve 6 1 2 3 1000 7 255
     100 100 42 5 (by decide) rfl rfl rfl rfl⟩

/-- C9: the initialize-mint instruction of the create transaction always
carries `None` as the freeze authority, and no instruction of the
transaction grants a freeze authority. -/
theorem initialize_mint_no_freeze_authority (mint_authority : Pubkey)
    (decimals : Nat) (payer_pubkey mint_pubkey faucet_pubkey : Pubkey)
    (rent_mint rent_faucet blockhash ui_amount : Nat) :
    (inti_mint_and_faucet_tx mint_authority decimals payer_pubkey mint_pubkey
        faucet_pubkey rent_mint rent_faucet blockhash ui_amount).instructions[1]? =
      some (TxInstruction.initialize_mint2 TOKEN_PROGRAM_ID mint_pubkey
              mint_authority none decimals) ∧
    ∀ ix ∈ (inti_mint_and_faucet_tx mint_authority decimals payer_pubkey
              mint_pubkey faucet_pubkey rent_mint rent_faucet blockhash
              ui_amount).instructions,
      ∀ tp mp ma fa d, ix = TxInstruction.initialize_mint2 tp mp ma fa d →
        fa = none := by
  refine ⟨rfl, ?_⟩
  intro ix hix tp mp ma fa d heq
  simp only [inti_mint_and_faucet_tx, List.mem_cons, List.not_mem_nil,
    or_false] at hix
  rcases hix with h | h | h | h <;> subst h <;> simp_all

/-- C10: both account-creation instructions are funded by the fee payer; the
mint account is sized `Mint::LEN` and owned by the token program, the faucet
account is sized `Faucet::LEN` and owned by the fixed faucet program id. -/
theorem create_account_params (mint_authority : Pubkey) (decimals : Nat)
    (payer_pubkey mint_pubkey faucet_pubkey : Pubkey)
    (rent_mint rent_faucet blockhash ui_amount : Nat) :
    (inti_mint_and_faucet_tx mint_authority decimals payer_pubkey mint_pubkey
        faucet_pubkey rent_mint rent_faucet blockhash ui_amount).instructions[0]? =
      some (TxInstruction.create_account payer_pubkey mint_pubkey rent_mint
              Mint.LEN TOKEN_PROGRAM_ID) ∧
    (inti_mint_and_faucet_tx mint_authority decimals payer_pubkey mint_pubkey
        faucet_pubkey rent_mint rent_faucet blockhash ui_amount).instructions[2]? =
      some (TxInstruction.create_account payer_pubkey faucet_pubkey rent_faucet
              Faucet.LEN FAUCET_PROGRAM_ID) := ⟨rfl, rfl⟩

end SplFaucet
